import Mathlib

/-!
Verification of the trackmate-mcp delivery-tracking core.

This file shallowly embeds the Python modules
`src/services/carrier_info.py`, `src/services/sweet_tracker.py`,
`src/utils/status_translator.py`, `src/utils/tracking_parser.py`,
`src/tools/track.py` and `src/tools/diagnose.py` as executable Lean
definitions (Python `str` becomes `String` handled through its character
list; Python dicts whose insertion order matters become ordered
association lists; the upstream HTTP fetch becomes an explicit outcome
parameter) and proves the specified properties about them.
-/

namespace TrackMate

/-! ### Python string primitives -/

/-- Python `needle in hay` on strings (substring containment). -/
def strHas (hay needle : String) : Bool :=
  go needle.data hay.data
where
  go (n : List Char) : List Char → Bool
    | [] => n.isEmpty
    | c :: t => n.isPrefixOf (c :: t) || go n t

/-- Python `s.startswith(p)`. -/
def pyStartswith (s p : String) : Bool :=
  p.data.isPrefixOf s.data

/-- Python `len(s)` (number of characters). -/
def pyLen (s : String) : Nat :=
  s.data.length

/-- Python `s.isdigit()` restricted to ASCII digits (the only digits the
tracking data uses): non-empty and all characters are digits. -/
def pyIsdigit (s : String) : Bool :=
  !s.data.isEmpty && s.data.all Char.isDigit

/-- Python `s.lower()`; only ASCII letters are affected (Korean text has
no case). -/
def pyLower (s : String) : String :=
  ⟨s.data.map Char.toLower⟩

/-- Python `s.replace(" ", "")`. -/
def pyDropSpaces (s : String) : String :=
  ⟨s.data.filter (fun c => c ≠ ' ')⟩

/-- Python `s.lower().replace(" ", "")`, the normalization used for
status keys and carrier aliases. -/
def pyLowerNoSpace (s : String) : String :=
  pyDropSpaces (pyLower s)

/-- Python `s[:n]` (first `n` characters). -/
def pyTake (s : String) (n : Nat) : String :=
  ⟨s.data.take n⟩

/-- Characters matched by the regex class `[\s\-_.]` of
`normalize_tracking_number` (Python `\s` restricted to the ASCII
whitespace occurring in the data). -/
def isSeparatorChar (c : Char) : Bool :=
  c == ' ' || c == '\t' || c == '\n' || c == '\r' || c == '\x0b' || c == '\x0c'
    || c == '-' || c == '_' || c == '.'

/-! ### Carrier directory (`src/services/carrier_info.py`) -/

structure Carrier where
  code : String
  name : String
  name_en : String
  contact : String
  website : String
  tracking_url : String
deriving DecidableEq, Repr

/-- Source `CARRIERS`: the static carrier table, in source definition order. -/
def CARRIERS : List (String × Carrier) :=
  [ ("04", ⟨"04", "CJ대한통운", "CJ Logistics", "1588-1255",
      "https://www.cjlogistics.com",
      "https://www.cjlogistics.com/ko/tool/parcel/tracking"⟩),
    ("08", ⟨"08", "롯데택배", "Lotte Global Logistics", "1588-2121",
      "https://www.lotteglogis.com",
      "https://www.lotteglogis.com/home/reservation/tracking/index"⟩),
    ("05", ⟨"05", "한진택배", "Hanjin Express", "1588-0011",
      "https://www.hanjin.com",
      "https://www.hanjin.com/kor/CMS/DeliveryMgr/WaybillResult.do"⟩),
    ("01", ⟨"01", "우체국택배", "Korea Post", "1588-1300",
      "https://www.epost.go.kr",
      "https://service.epost.go.kr/trace.RetrieveDomRi498Trv.postal"⟩),
    ("06", ⟨"06", "로젠택배", "Logen", "1588-9988",
      "https://www.ilogen.com",
      "https://www.ilogen.com/web/delivery/tracking"⟩),
    ("11", ⟨"11", "일양로지스", "Ilyang Logis", "1588-0002",
      "https://www.ilyanglogis.com",
      "https://www.ilyanglogis.com/functionality/tracking.asp"⟩),
    ("23", ⟨"23", "경동택배", "Kyungdong Express", "1899-5368",
      "https://kdexp.com",
      "https://kdexp.com/service/delivery"⟩),
    ("46", ⟨"46", "CU편의점택배", "CU CVS Delivery", "1566-1025",
      "https://www.cupost.co.kr",
      "https://www.cupost.co.kr/tracking.cupost"⟩),
    ("24", ⟨"24", "대신택배", "Daesin", "043-222-4582",
      "https://www.ds3211.com",
      "https://www.ds3211.com/freight/internalFreightSearch.ht"⟩),
    ("22", ⟨"22", "대한통운", "Korea Express", "1588-1255",
      "https://www.cjlogistics.com",
      "https://www.cjlogistics.com/ko/tool/parcel/tracking"⟩) ]

/-- Source `CARRIER_ALIASES`: alias → code, in source definition order (the
order matters for `extract_carrier_name`'s first-match scan). -/
def CARRIER_ALIASES : List (String × String) :=
  [ ("cj대한통운", "04"), ("cj택배", "04"), ("대한통운", "04"),
    ("씨제이대한통운", "04"),
    ("롯데택배", "08"), ("롯데글로벌로지스", "08"), ("롯데", "08"),
    ("한진택배", "05"), ("한진", "05"),
    ("우체국", "01"), ("우체국택배", "01"), ("우편", "01"),
    ("로젠택배", "06"), ("로젠", "06"),
    ("일양로지스", "11"), ("일양", "11"),
    ("경동택배", "23"), ("경동", "23"),
    ("cu택배", "46"), ("cu편의점", "46"), ("씨유택배", "46"),
    ("대신택배", "24"), ("대신", "24") ]

/-- Source `get_carrier_by_code`. -/
def get_carrier_by_code (code : String) : Option Carrier :=
  (CARRIERS.find? (fun kv => kv.1 == code)).map Prod.snd

/-- Source `get_carrier_by_name` (lowercases, strips spaces, resolves through
the alias table). -/
def get_carrier_by_name (name : String) : Option Carrier :=
  let name_lower := pyLowerNoSpace name
  match CARRIER_ALIASES.find? (fun kv => kv.1 == name_lower) with
  | some kv => get_carrier_by_code kv.2
  | none => none

/-- Source `detect_carrier_from_tracking`: pattern-based carrier detection,
an ordered if/elif chain. -/
def detect_carrier_from_tracking (tracking_number : String) : Option String :=
  if pyStartswith tracking_number "6"
      && (pyLen tracking_number == 12 || pyLen tracking_number == 13) then
    some "04"
  else if pyLen tracking_number == 13 && pyIsdigit tracking_number then
    some "01"
  else if pyLen tracking_number == 11 && pyIsdigit tracking_number then
    some "06"
  else
    none

/-! ### Status classifier (`src/utils/status_translator.py`) -/

inductive DeliveryPhase where
  | PICKUP
  | IN_TRANSIT
  | OUT_FOR_DELIVERY
  | DELIVERED
  | ISSUE
deriving DecidableEq, Repr

structure TranslatedStatus where
  original : String
  translated : String
  short : String
  phase : DeliveryPhase
  emoji : String
  is_final : Bool
  estimated_hours : Option Nat
deriving DecidableEq, Repr

/-- One `STATUS_TRANSLATIONS` value:
(translated, short, phase, emoji, is_final, est_hours). -/
abbrev StatusEntry :=
  String × String × DeliveryPhase × String × Bool × Option Nat

/-- Source `STATUS_TRANSLATIONS`, in source definition order (the order is the
iteration order of the partial-match scan). -/
def STATUS_TRANSLATIONS : List (String × StatusEntry) :=
  [ ("접수", ("판매자가 택배를 접수했어요", "접수됨", .PICKUP, "📝", false, some 72)),
    ("집화처리", ("택배사가 물건을 수거했어요", "수거 완료", .PICKUP, "📦", false, some 48)),
    ("집하", ("택배사가 물건을 수거했어요", "수거 완료", .PICKUP, "📦", false, some 48)),
    ("상품인수", ("택배사가 물건을 받았어요", "인수 완료", .PICKUP, "📦", false, some 48)),
    ("간선상차", ("큰 트럭에 실려서 다음 허브로 이동 중이에요", "허브 이동 중", .IN_TRANSIT, "🚛", false, some 24)),
    ("간선하차", ("허브에 도착해서 분류 중이에요", "허브 도착", .IN_TRANSIT, "🏭", false, some 18)),
    ("간선", ("허브 간 이동 중이에요", "이동 중", .IN_TRANSIT, "🚛", false, some 24)),
    ("행낭포장", ("여러 소포를 묶어서 포장 중이에요", "포장 중", .IN_TRANSIT, "📮", false, some 24)),
    ("발송", ("발송 처리되었어요", "발송됨", .IN_TRANSIT, "📤", false, some 48)),
    ("출고", ("출고 처리되었어요", "출고됨", .IN_TRANSIT, "📤", false, some 48)),
    ("입고", ("허브에 도착했어요", "허브 입고", .IN_TRANSIT, "🏢", false, some 18)),
    ("상차", ("트럭에 상차되었어요", "상차됨", .IN_TRANSIT, "🚚", false, some 12)),
    ("하차", ("도착지에서 하차되었어요", "하차됨", .IN_TRANSIT, "📥", false, some 8)),
    ("터미널", ("터미널에서 분류 중이에요", "터미널 분류", .IN_TRANSIT, "🏭", false, some 18)),
    ("이동중", ("배송 중이에요", "이동 중", .IN_TRANSIT, "🚚", false, some 12)),
    ("sm입고", ("배송 기사님이 물건을 받았어요! 오늘 도착 예정", "기사님 수령", .OUT_FOR_DELIVERY, "🙋", false, some 6)),
    ("배달출발", ("배송 기사님이 출발했어요! 곧 도착해요", "배송 출발", .OUT_FOR_DELIVERY, "🚚", false, some 3)),
    ("배달준비", ("배송 준비 중이에요", "배송 준비", .OUT_FOR_DELIVERY, "📋", false, some 6)),
    ("배송출발", ("배송 기사님이 출발했어요!", "배송 출발", .OUT_FOR_DELIVERY, "🚚", false, some 3)),
    ("배달중", ("배송 중이에요! 조금만 기다려주세요", "배송 중", .OUT_FOR_DELIVERY, "🚚", false, some 2)),
    ("배달완료", ("배송이 완료되었어요! 확인해주세요", "배송 완료", .DELIVERED, "✅", true, some 0)),
    ("배송완료", ("배송이 완료되었어요! 확인해주세요", "배송 완료", .DELIVERED, "✅", true, some 0)),
    ("인수확인", ("수령이 확인되었어요", "수령 완료", .DELIVERED, "✅", true, some 0)),
    ("수령", ("수령이 확인되었어요", "수령 완료", .DELIVERED, "✅", true, some 0)),
    ("완료", ("배송이 완료되었어요!", "완료", .DELIVERED, "✅", true, some 0)),
    ("반송", ("반송 처리되었어요. 판매자에게 문의해주세요", "반송", .ISSUE, "↩️", true, none)),
    ("미배달", ("배송을 못 했어요. 재배송 예정이에요", "미배달", .ISSUE, "⚠️", false, some 24)),
    ("보관", ("물건을 보관 중이에요 (경비실/택배함 등)", "보관 중", .DELIVERED, "📍", true, some 0)),
    ("부재", ("부재중이라 배송을 못 했어요", "부재", .ISSUE, "🏠", false, some 24)),
    ("주소불명", ("주소가 불명확해요. 판매자에게 확인 요청해주세요", "주소 오류", .ISSUE, "❓", false, none)),
    ("수취거부", ("수취가 거부되었어요", "수취 거부", .ISSUE, "🚫", true, none)),
    ("분실", ("분실 처리되었어요. 판매자에게 문의해주세요", "분실", .ISSUE, "❌", true, none)) ]

/-- Build a `TranslatedStatus` from a table entry. -/
def ofEntry (raw : String) (e : StatusEntry) : TranslatedStatus :=
  ⟨raw, e.1, e.2.1, e.2.2.1, e.2.2.2.1, e.2.2.2.2.1, e.2.2.2.2.2⟩

/-- Source `translate_status`: exact match, then first-match substring scan in
table order, then the two unknown-status fallbacks. -/
def translate_status (raw_status : String) : TranslatedStatus :=
  let status_lower := pyLowerNoSpace raw_status
  match STATUS_TRANSLATIONS.find? (fun kv => kv.1 == status_lower) with
  | some kv => ofEntry raw_status kv.2
  | none =>
    match STATUS_TRANSLATIONS.find? (fun kv => strHas status_lower kv.1) with
    | some kv => ofEntry raw_status kv.2
    | none =>
      if strHas status_lower "완료" || strHas status_lower "도착" then
        ⟨raw_status, raw_status ++ " - 배송 진행 중인 것 같아요",
          pyTake raw_status 6, .IN_TRANSIT, "📦", false, some 24⟩
      else
        ⟨raw_status, "'" ++ raw_status ++ "' 상태예요. 배송이 진행 중인 것 같아요",
          if pyLen raw_status > 6 then pyTake raw_status 6 else raw_status,
          .IN_TRANSIT, "📦", false, none⟩

/-! ### Query orchestrator (`src/services/sweet_tracker.py`)

The HTTP call inside `SweetTrackerClient.track` is the external
collaborator: we model its outcome as an explicit `FetchOutcome`
argument (the successful JSON payload, or one of the three exception
classes the source catches).  The mock-mode shim used when no API key is
configured is a testing aid outside the orchestration logic and is not
modelled; the definitions below embed the API path. -/

structure TrackingEvent where
  time : String
  status : String
  location : String
  detail : Option String := none
deriving DecidableEq, Repr

structure TrackingResult where
  success : Bool
  tracking_number : String
  carrier_code : String
  carrier_name : String
  sender : Option String
  receiver : Option String
  item_name : Option String
  events : List TrackingEvent
  current_status : String
  is_delivered : Bool
  error_message : Option String := none
deriving DecidableEq, Repr

/-- One entry of the upstream payload's `trackingDetails` array; the
fields are the ones `track` consumes (`timeString`, `kind`, `where`,
`remark`).  `where` is a Lean keyword, hence `whereLoc`. -/
structure ApiDetail where
  timeString : String
  kind : String
  whereLoc : String
  remark : Option String
deriving DecidableEq, Repr

/-- The upstream JSON payload fields `track` consumes. -/
structure ApiPayload where
  status : Option String
  msg : Option String
  trackingDetails : List ApiDetail
  completeYN : Option String
  senderName : Option String
  receiverName : Option String
  itemName : Option String
deriving DecidableEq, Repr

/-- Outcome of the single upstream fetch inside `track`: a payload, or
one of the exception classes the source handles
(`httpx.HTTPStatusError`, `httpx.TimeoutException`, any other
`Exception`). -/
inductive FetchOutcome where
  | payload (d : ApiPayload)
  | httpStatusError (status : Nat)
  | timeout
  | otherError (msg : String)
deriving DecidableEq, Repr

/-- The shared shape of every `success=False` result `track` builds. -/
def failedResult (tracking_number carrier_code carrier_name : String)
    (error_message : String) : TrackingResult :=
  { success := false
    tracking_number := tracking_number
    carrier_code := carrier_code
    carrier_name := carrier_name
    sender := none
    receiver := none
    item_name := none
    events := []
    current_status := "조회 실패"
    is_delivered := false
    error_message := some error_message }

/-- Source `SweetTrackerClient.track` (API path): maps the fetch outcome for
`(tracking_number, carrier_code)` to a `TrackingResult`. -/
def track (tracking_number carrier_code : String)
    (outcome : FetchOutcome) : TrackingResult :=
  let carrier_name :=
    match get_carrier_by_code carrier_code with
    | some c => c.name
    | none => "택배사 " ++ carrier_code
  match outcome with
  | .httpStatusError s =>
    failedResult tracking_number carrier_code carrier_name
      ("API 오류: " ++ toString s)
  | .timeout =>
    failedResult tracking_number carrier_code carrier_name
      "API 응답 시간 초과"
  | .otherError m =>
    failedResult tracking_number carrier_code carrier_name
      ("오류 발생: " ++ m)
  | .payload d =>
    if d.status == some "false" || d.msg.isSome then
      failedResult tracking_number carrier_code carrier_name
        (d.msg.getD "조회에 실패했습니다")
    else
      let events := d.trackingDetails.map
        (fun det => ⟨det.timeString, det.kind, det.whereLoc, det.remark⟩)
      let current_status :=
        match events.getLast? with
        | some e => e.status
        | none => "정보 없음"
      let is_delivered :=
        (match events.getLast? with
          | some e =>
            let last_status := pyLower e.status
            strHas last_status "완료"
              || (strHas last_status "배달" && !strHas last_status "출발")
          | none => false)
        || d.completeYN == some "Y"
      { success := true
        tracking_number := tracking_number
        carrier_code := carrier_code
        carrier_name := carrier_name
        sender := d.senderName
        receiver := d.receiverName
        item_name := d.itemName
        events := events
        current_status := current_status
        is_delivered := is_delivered
        error_message := none }

/-- The fixed synthetic failure `track_auto_detect` returns when every
attempt fails. -/
def carrierNotFoundResult (tracking_number : String) : TrackingResult :=
  { success := false
    tracking_number := tracking_number
    carrier_code := ""
    carrier_name := "알 수 없음"
    sender := none
    receiver := none
    item_name := none
    events := []
    current_status := "조회 실패"
    is_delivered := false
    error_message := some "택배사를 찾을 수 없습니다. 택배사를 직접 지정해주세요." }

/-- The `major_carriers` fallback list of `track_auto_detect`. -/
def major_carriers : List String := ["04", "08", "05", "01", "06"]

/-- The `for code in major_carriers` loop of `track_auto_detect`.
`fo` gives each carrier's fetch outcome (each carrier is queried at most
once, so a function of the code is a faithful model of the run);
`tried` accumulates the codes already fetched, oldest first. -/
def cascadeMajors (fo : String → FetchOutcome) (tracking_number : String)
    (detected : Option String) :
    List String → List String → TrackingResult × List String
  | [], tried => (carrierNotFoundResult tracking_number, tried)
  | code :: rest, tried =>
    if some code == detected then
      cascadeMajors fo tracking_number detected rest tried
    else
      let r := track tracking_number code (fo code)
      if r.success then (r, tried ++ [code])
      else cascadeMajors fo tracking_number detected rest (tried ++ [code])

/-- Source `SweetTrackerClient.track_auto_detect` (API path).  Returns the
result together with the trace of carrier codes fetched, in order. -/
def track_auto_detect (fo : String → FetchOutcome)
    (tracking_number : String) : TrackingResult × List String :=
  match detect_carrier_from_tracking tracking_number with
  | some code =>
    let r := track tracking_number code (fo code)
    if r.success then (r, [code])
    else cascadeMajors fo tracking_number (some code) major_carriers [code]
  | none =>
    cascadeMajors fo tracking_number none major_carriers []

/-! ### Stagnation analyzer (`src/tools/diagnose.py`)

`_analyze_stagnation` parses the last event's timestamp with
`datetime.strptime` against three formats in order.  We model `strptime`
for exactly those formats: each numeric directive matches one or two
digits (two preferred, as Python's `_strptime` regexes do), a literal
matches itself, a space in the format matches a run of whitespace, the
whole string must be consumed, and the parsed values must form a valid
`datetime` (month/day/hour/minute/second range checks, real calendar
day).  `datetime.now()` becomes an explicit epoch-seconds argument. -/

structure PyDateTime where
  year : Nat
  month : Nat
  day : Nat
  hour : Nat
  minute : Nat
  second : Nat
deriving DecidableEq, Repr

/-- The numeric fields a format directive can set. -/
inductive TimeField where
  | month | day | hour | minute | second
deriving DecidableEq, Repr

def setField (f : TimeField) (v : Nat) (dt : PyDateTime) : PyDateTime :=
  match f with
  | .month => { dt with month := v }
  | .day => { dt with day := v }
  | .hour => { dt with hour := v }
  | .minute => { dt with minute := v }
  | .second => { dt with second := v }

/-- One token of a strptime format string: `%Y`, a 1–2 digit numeric
directive (with the value ranges its `_strptime` regex accepts for two
digits and for one digit), a literal character, or format whitespace
(which matches one or more whitespace characters). -/
inductive FmtTok where
  | year
  | num (field : TimeField) (lo hi lo1 : Nat)
  | lit (c : Char)
  | ws
deriving Repr

def isPySpace (c : Char) : Bool :=
  c == ' ' || c == '\t' || c == '\n' || c == '\r' || c == '\x0b' || c == '\x0c'

def digitVal (c : Char) : Nat := c.toNat - 48

/-- Run a token list over the input, threading the partially built
`PyDateTime`; the whole input must be consumed. -/
def runFmt : List FmtTok → List Char → PyDateTime → Option PyDateTime
  | [], s, dt => if s.isEmpty then some dt else none
  | tok :: toks, s, dt =>
    match tok with
    | .lit c =>
      match s with
      | c' :: t => if c' == c then runFmt toks t dt else none
      | [] => none
    | .ws =>
      match s with
      | c :: t => if isPySpace c then runFmt toks (t.dropWhile isPySpace) dt else none
      | [] => none
    | .year =>
      match s with
      | a :: b :: c :: d :: t =>
        if a.isDigit && b.isDigit && c.isDigit && d.isDigit then
          let y := 1000 * digitVal a + 100 * digitVal b + 10 * digitVal c + digitVal d
          runFmt toks t { dt with year := y }
        else none
      | _ => none
    | .num f lo hi lo1 =>
      let attempt2 :=
        match s with
        | a :: b :: t =>
          if a.isDigit && b.isDigit then
            let v := 10 * digitVal a + digitVal b
            if lo ≤ v ∧ v ≤ hi then runFmt toks t (setField f v dt) else none
          else none
        | _ => none
      match attempt2 with
      | some r => some r
      | none =>
        match s with
        | a :: t =>
          if a.isDigit && lo1 ≤ digitVal a then
            runFmt toks t (setField f (digitVal a) dt)
          else none
        | [] => none

/-- Format `"%Y-%m-%d %H:%M:%S"`. -/
def fmtYmdHMS : List FmtTok :=
  [.year, .lit '-', .num .month 1 12 1, .lit '-', .num .day 1 31 1, .ws,
   .num .hour 0 23 0, .lit ':', .num .minute 0 59 0, .lit ':', .num .second 0 61 0]

/-- Format `"%Y-%m-%d %H:%M"`. -/
def fmtYmdHM : List FmtTok :=
  [.year, .lit '-', .num .month 1 12 1, .lit '-', .num .day 1 31 1, .ws,
   .num .hour 0 23 0, .lit ':', .num .minute 0 59 0]

/-- Format `"%Y.%m.%d %H:%M"`. -/
def fmtYdotHM : List FmtTok :=
  [.year, .lit '.', .num .month 1 12 1, .lit '.', .num .day 1 31 1, .ws,
   .num .hour 0 23 0, .lit ':', .num .minute 0 59 0]

def isLeapYear (y : Nat) : Bool :=
  y % 4 == 0 && (y % 100 != 0 || y % 400 == 0)

def daysInMonth (y m : Nat) : Nat :=
  if m == 2 then (if isLeapYear y then 29 else 28)
  else if m == 4 || m == 6 || m == 9 || m == 11 then 30
  else 31

/-- The range checks the `datetime` constructor performs after the
format regex matched (a failing check raises `ValueError`, i.e. the
format does not parse). -/
def datetimeValid (dt : PyDateTime) : Bool :=
  decide (1 ≤ dt.year ∧ 1 ≤ dt.month ∧ dt.month ≤ 12
    ∧ 1 ≤ dt.day ∧ dt.day ≤ daysInMonth dt.year dt.month
    ∧ dt.hour ≤ 23 ∧ dt.minute ≤ 59 ∧ dt.second ≤ 59)

/-- Model of `datetime.strptime(s, fmt)` for one of the three formats:
`strptime` defaults un-set fields to 1900-01-01 00:00:00. -/
def strptimeFmt (toks : List FmtTok) (s : String) : Option PyDateTime :=
  match runFmt toks s.data ⟨1900, 1, 1, 0, 0, 0⟩ with
  | some dt => if datetimeValid dt then some dt else none
  | none => none

/-- The `for fmt in [...]` loop of `_analyze_stagnation`: the first
format that parses wins. -/
def parseLastEventTime (s : String) : Option PyDateTime :=
  match strptimeFmt fmtYmdHMS s with
  | some dt => some dt
  | none =>
    match strptimeFmt fmtYmdHM s with
    | some dt => some dt
    | none => strptimeFmt fmtYdotHM s

/-- Days from 0000-03-01 to the given civil date (standard
days-from-civil computation), used to realise `datetime` subtraction. -/
def daysFromCivil (y m d : Nat) : Int :=
  let y' : Int := if m ≤ 2 then (y : Int) - 1 else (y : Int)
  let era : Int := y'.fdiv 400
  let yoe : Int := y' - era * 400
  let mp : Int := ((m : Int) + 9) % 12
  let doy : Int := (153 * mp + 2).fdiv 5 + (d : Int) - 1
  let doe : Int := yoe * 365 + yoe.fdiv 4 - yoe.fdiv 100 + doy
  era * 146097 + doe

/-- A `datetime` as seconds on an absolute axis (any fixed epoch works
for subtraction). -/
def toEpochSeconds (dt : PyDateTime) : Int :=
  daysFromCivil dt.year dt.month dt.day * 86400
    + dt.hour * 3600 + dt.minute * 60 + dt.second

/-- The dict `_analyze_stagnation` returns. -/
structure StagnationDict where
  is_stagnant : Bool
  days_stagnant : Int
  last_location : Option String
  possible_causes : List (String × Nat)
deriving DecidableEq, Repr

/-- Source `_analyze_stagnation`.  `nowSec` is `datetime.now()` in epoch
seconds; `(now - last_time).days` is floored division by 86400, exactly
`timedelta.days`.  (`location or ""` in the source is the identity on
strings, since an empty string is already `""`.) -/
def _analyze_stagnation (nowSec : Int) (events : List TrackingEvent)
    (carrier_code : String) : StagnationDict :=
  match events.getLast? with
  | none =>
    { is_stagnant := false, days_stagnant := 0, last_location := none,
      possible_causes := [] }
  | some last_event =>
    match parseLastEventTime last_event.time with
    | none =>
      { is_stagnant := false, days_stagnant := 0,
        last_location := some last_event.location, possible_causes := [] }
    | some last_time =>
      let days_since := (nowSec - toEpochSeconds last_time).fdiv 86400
      if days_since ≥ 2 then
        let location := last_event.location
        let possible_causes :=
          if strHas location "허브" || strHas location "터미널" then
            [("물량 폭주로 인한 분류 지연", 60), ("분류 과정에서 누락", 30),
             ("시스템 오류", 10)]
          else if strHas location "공항" then
            [("통관 지연", 70), ("세관 검사", 20), ("서류 문제", 10)]
          else
            [("물량 폭주로 인한 지연", 50), ("배송 경로 변경", 25),
             ("분류 누락 가능성", 25)]
        { is_stagnant := true, days_stagnant := days_since,
          last_location := some location, possible_causes := possible_causes }
      else
        { is_stagnant := false, days_stagnant := 0,
          last_location := some last_event.location, possible_causes := [] }

/-! ### Regex engine for the parser patterns
(`src/utils/tracking_parser.py`)

`extract_tracking_numbers` and `extract_carrier_name` use `re.findall`
and `re.search` with a handful of fixed patterns.  We embed exactly the
constructs those patterns use: literals (optionally case-insensitive),
an optional literal `(?:..)?`, a greedy counted character-class
repetition (`{m,n}`, `*` and `+` as unbounded upper end), word
boundaries `\b`, and a single capture group per pattern.  The matcher
enumerates alternatives in Python's backtracking priority order (greedy
first) and takes the first full match; `findall` scans left to right
taking non-overlapping matches, `search` returns the first match. -/

/-- A group-free regex element. -/
inductive Re0 where
  | lit (ci : Bool) (cs : List Char)
  | opt (cs : List Char)
  | rep (p : Char → Bool) (lo : Nat) (hi : Option Nat)
  | wb

/-- Python `\w` restricted to the alphabets this codebase's texts use:
ASCII alphanumerics, underscore, and Hangul syllables. -/
def isWordChar (c : Char) : Bool :=
  c.isAlphanum || c == '_' || decide (0xAC00 ≤ c.toNat ∧ c.toNat ≤ 0xD7A3)

/-- Python `\s` for the same texts. -/
def isSpaceCls (c : Char) : Bool := isPySpace c

/-- Word boundary between the previous character and the next one. -/
def isBoundary (prev : Option Char) (next : Option Char) : Bool :=
  (match prev with | some c => isWordChar c | none => false)
    != (match next with | some c => isWordChar c | none => false)

def litMatches (ci : Bool) (cs : List Char) (s : List Char) : Bool :=
  if ci then (cs.map Char.toLower).isPrefixOf (s.map Char.toLower)
  else cs.isPrefixOf s

/-- Previous character after consuming `n` characters of `s` (used for
word-boundary tracking). -/
def prevAfter (prev : Option Char) (s : List Char) (n : Nat) : Option Char :=
  if n == 0 then prev else (s.take n).getLast?

/-- Length of the maximal prefix of `s` satisfying `p`, capped at `hi`
when a bound is given. -/
def runLen (p : Char → Bool) (hi : Option Nat) (s : List Char) : Nat :=
  let m := (s.takeWhile p).length
  match hi with
  | some h => min m h
  | none => m

/-- All ways to match a sequence of elements against `s`, returned as
`(previous character, remaining input)` pairs in Python's backtracking
priority order. -/
def matchSeq : List Re0 → Option Char → List Char → List (Option Char × List Char)
  | [], prev, s => [(prev, s)]
  | e :: rest, prev, s =>
    match e with
    | .lit ci cs =>
      if litMatches ci cs s then
        matchSeq rest (prevAfter prev s cs.length) (s.drop cs.length)
      else []
    | .opt cs =>
      (if litMatches false cs s then
        matchSeq rest (prevAfter prev s cs.length) (s.drop cs.length)
      else []) ++ matchSeq rest prev s
    | .rep p lo hi =>
      let r := runLen p hi s
      if r < lo then []
      else
        ((List.range (r - lo + 1)).map (fun i => r - i)).flatMap
          (fun n => matchSeq rest (prevAfter prev s n) (s.drop n))
    | .wb =>
      if isBoundary prev s.head? then matchSeq rest prev s else []

/-- A pattern with exactly one capture group:
`pre ( grp ) post`. -/
structure Pat where
  pre : List Re0
  grp : List Re0
  post : List Re0

/-- First full match of `pat` at the current position: the captured
characters and the remaining input. -/
def matchPat (pat : Pat) (prev : Option Char) (s : List Char) :
    Option (List Char × List Char) :=
  ((matchSeq pat.pre prev s).flatMap (fun pr1 =>
    (matchSeq pat.grp pr1.1 pr1.2).flatMap (fun pr2 =>
      (matchSeq pat.post pr2.1 pr2.2).map (fun pr3 =>
        (pr1.2.take (pr1.2.length - pr2.2.length), pr3.2))))).head?

/-- Model of `re.findall` (the capture group's text per match), scanning left to
right; `fuel` bounds the scan (`s.length + 1` always suffices). -/
def findallAux (pat : Pat) : Nat → Option Char → List Char → List (List Char)
  | 0, _, _ => []
  | fuel + 1, prev, s =>
    match matchPat pat prev s with
    | some (cap, rest) =>
      let consumed := s.length - rest.length
      if consumed == 0 then
        match s with
        | [] => [cap]
        | c :: t => cap :: findallAux pat fuel (some c) t
      else
        cap :: findallAux pat fuel (prevAfter prev s consumed) rest
    | none =>
      match s with
      | [] => []
      | c :: t => findallAux pat fuel (some c) t

def pyFindall (pat : Pat) (text : String) : List String :=
  (findallAux pat (text.data.length + 1) none text.data).map List.asString

/-- Model of `re.search`, returning the capture group's text of the first match. -/
def searchAux (pat : Pat) : Nat → Option Char → List Char → Option (List Char)
  | 0, _, _ => none
  | fuel + 1, prev, s =>
    match matchPat pat prev s with
    | some (cap, _) => some cap
    | none =>
      match s with
      | [] => none
      | c :: t => searchAux pat fuel (some c) t

def pySearch (pat : Pat) (text : String) : Option String :=
  (searchAux pat (text.data.length + 1) none text.data).map List.asString

/-! ### The parser's concrete patterns -/

/-- Class `[0-9\-\s]` of the explicit-label patterns. -/
def isNumSepChar (c : Char) : Bool :=
  c.isDigit || c == '-' || isPySpace c

/-- Class `[\-\s]` of the dash-grouped pattern. -/
def isDashSpace (c : Char) : Bool :=
  c == '-' || isPySpace c

/-- Pattern `운송장\s*(?:번호)?[:\s]*([0-9\-\s]{10,20})`. -/
def patExplicit1 : Pat :=
  { pre := [.lit false "운송장".data, .rep isSpaceCls 0 none,
            .opt "번호".data, .rep (fun c => c == ':' || isPySpace c) 0 none]
    grp := [.rep isNumSepChar 10 (some 20)]
    post := [] }

/-- Pattern `송장\s*(?:번호)?[:\s]*([0-9\-\s]{10,20})`. -/
def patExplicit2 : Pat :=
  { pre := [.lit false "송장".data, .rep isSpaceCls 0 none,
            .opt "번호".data, .rep (fun c => c == ':' || isPySpace c) 0 none]
    grp := [.rep isNumSepChar 10 (some 20)]
    post := [] }

/-- Pattern `invoice[:\s]*([0-9\-\s]{10,20})` with `re.IGNORECASE`. -/
def patExplicit3 : Pat :=
  { pre := [.lit true "invoice".data,
            .rep (fun c => c == ':' || isPySpace c) 0 none]
    grp := [.rep isNumSepChar 10 (some 20)]
    post := [] }

/-- Pattern `tracking[:\s]*([0-9\-\s]{10,20})` with `re.IGNORECASE`. -/
def patExplicit4 : Pat :=
  { pre := [.lit true "tracking".data,
            .rep (fun c => c == ':' || isPySpace c) 0 none]
    grp := [.rep isNumSepChar 10 (some 20)]
    post := [] }

def explicit_patterns : List Pat :=
  [patExplicit1, patExplicit2, patExplicit3, patExplicit4]

/-- Pattern `\b([0-9]{10,14})\b`. -/
def number_pattern : Pat :=
  { pre := [.wb]
    grp := [.rep Char.isDigit 10 (some 14)]
    post := [.wb] }

/-- Pattern `\b(\d{3,5}[\-\s]\d{3,5}[\-\s]\d{3,5})\b`. -/
def dash_pattern : Pat :=
  { pre := [.wb]
    grp := [.rep Char.isDigit 3 (some 5), .rep isDashSpace 1 (some 1),
            .rep Char.isDigit 3 (some 5), .rep isDashSpace 1 (some 1),
            .rep Char.isDigit 3 (some 5)]
    post := [.wb] }

/-- Pattern `\[([\w\s]+)\]`. -/
def patBracket : Pat :=
  { pre := [.lit false ['[']]
    grp := [.rep (fun c => isWordChar c || isPySpace c) 1 none]
    post := [.lit false [']']] }

/-- Pattern `([\w]+택배)`. -/
def patTaekbae : Pat :=
  { pre := []
    grp := [.rep isWordChar 1 none, .lit false "택배".data]
    post := [] }

/-- Pattern `([\w]+로지스)`. -/
def patLogis : Pat :=
  { pre := []
    grp := [.rep isWordChar 1 none, .lit false "로지스".data]
    post := [] }

/-! ### Extractor (`src/utils/tracking_parser.py`) -/

/-- Source `normalize_tracking_number`: `re.sub(r"[\s\-_.]", "", raw)`. -/
def normalize_tracking_number (raw : String) : String :=
  ⟨raw.data.filter (fun c => !isSeparatorChar c)⟩

/-- Pass 1 of `extract_tracking_numbers`: every explicit-label match
(all four patterns, in order) normalized and kept when the normalized
length is 10–15.  Note the source appends here without a duplicate
check. -/
def explicitCandidates (text : String) : List String :=
  explicit_patterns.flatMap (fun pat =>
    (pyFindall pat text).filterMap (fun m =>
      let normalized := normalize_tracking_number m
      if 10 ≤ pyLen normalized ∧ pyLen normalized ≤ 15 then some normalized
      else none))

/-- Pass 2: append each bare 10–14-digit run not already present. -/
def addNumberCandidates (ms : List String) (candidates : List String) :
    List String :=
  ms.foldl (fun cands m => if m ∈ cands then cands else cands ++ [m]) candidates

/-- Pass 3: append each dash-grouped match, normalized, when not
already present and of normalized length 10–15. -/
def addDashCandidates (ms : List String) (candidates : List String) :
    List String :=
  ms.foldl (fun cands m =>
    let normalized := normalize_tracking_number m
    if normalized ∉ cands ∧ 10 ≤ pyLen normalized ∧ pyLen normalized ≤ 15
    then cands ++ [normalized] else cands) candidates

/-- Source `extract_tracking_numbers`: the three passes in order. -/
def extract_tracking_numbers (text : String) : List String :=
  addDashCandidates (pyFindall dash_pattern text)
    (addNumberCandidates (pyFindall number_pattern text)
      (explicitCandidates text))

/-- Source `extract_carrier_name`: alias containment scan in table order, then
the three carrier-mention patterns via `re.search` (a match is returned
only when, lowercased and space-stripped, it is an alias key). -/
def extract_carrier_name (text : String) : Option String :=
  let text_lower := pyLower text
  match CARRIER_ALIASES.find? (fun kv => strHas text_lower kv.1) with
  | some kv => some kv.1
  | none =>
    let tryPat (pat : Pat) : Option String :=
      match pySearch pat text with
      | some g =>
        let carrier_text := pyLowerNoSpace g
        if (CARRIER_ALIASES.find? (fun kv => kv.1 == carrier_text)).isSome then
          some carrier_text
        else none
      | none => none
    match tryPat patBracket with
    | some r => some r
    | none =>
      match tryPat patTaekbae with
      | some r => some r
      | none => tryPat patLogis

structure ParsedTracking where
  tracking_number : String
  carrier_code : Option String
  carrier_name : Option String
  confidence : ℚ
  source : String
deriving DecidableEq, Repr

/-- The text-level carrier of `parse_tracking_input` before the loop
(the mentioned alias resolved through `get_carrier_by_name`). -/
def textCarrier (text : String) : Option String × Option String :=
  match extract_carrier_name text with
  | some mc =>
    match get_carrier_by_name mc with
    | some c => (some c.code, some c.name)
    | none => (none, none)
  | none => (none, none)

/-- The `# Determine carrier if not already known` step of
`parse_tracking_input`'s loop body: the `(carrier_code, carrier_name)`
pair is updated only while no carrier is known yet. -/
def loopCarrierState (st : Option String × Option String)
    (tracking_num : String) : Option String × Option String :=
  if st.1.isSome then st
  else
    match detect_carrier_from_tracking tracking_num with
    | some detected_code =>
      match get_carrier_by_code detected_code with
      | some c => (some c.code, some c.name)
      | none => st
    | none => st

/-- The `for tracking_num in candidates` loop of `parse_tracking_input`:
`carrier_code`/`carrier_name` are the loop-carried variables (the source
mutates them inside the loop, so a detection made for one candidate
persists for the following ones). -/
def parseLoop (text : String) (mentioned_carrier : Option String) :
    List String → Option String → Option String → List ParsedTracking
  | [], _, _ => []
  | tracking_num :: rest, carrier_code, carrier_name =>
    let st := loopCarrierState (carrier_code, carrier_name) tracking_num
    let carrier_code := st.1
    let carrier_name := st.2
    let confidence : ℚ := (1 : ℚ) / 2
    let confidence :=
      if 11 ≤ pyLen tracking_num ∧ pyLen tracking_num ≤ 13 then
        confidence + 1 / 5 else confidence
    let confidence :=
      if carrier_code.isSome then confidence + 1 / 5 else confidence
    let confidence :=
      if strHas text "운송장" || strHas text "송장" then
        confidence + 1 / 10 else confidence
    let confidence := min confidence 1
    let source :=
      if strHas text "운송장" || strHas text "송장" then
        "운송장 번호 명시에서 추출"
      else
        match mentioned_carrier with
        | some mc => (carrier_name.getD mc) ++ " 문자에서 추출"
        | none => "텍스트에서 숫자 패턴으로 추출"
    ⟨tracking_num, carrier_code, carrier_name, confidence, source⟩
      :: parseLoop text mentioned_carrier rest carrier_code carrier_name

/-- Source `parse_tracking_input`. -/
def parse_tracking_input (text : String) : List ParsedTracking :=
  let mentioned_carrier := extract_carrier_name text
  let st := textCarrier text
  let candidates := extract_tracking_numbers text
  parseLoop text mentioned_carrier candidates st.1 st.2

/-- The first carrier `(code, name)` that pattern detection (filtered
through the carrier table) attributes while scanning a candidate list in
order — the value `parse_tracking_input`'s loop state converges to when
no text-level carrier exists. -/
def firstDetect : List String → Option (String × String)
  | [] => none
  | n :: rest =>
    match detect_carrier_from_tracking n with
    | some dc =>
      match get_carrier_by_code dc with
      | some c => some (c.code, c.name)
      | none => firstDetect rest
    | none => firstDetect rest

/-! ### Bulk tracking tool (`src/tools/track.py`, `my_packages`)

`my_packages` splits the comma-separated input, strips and normalizes
each piece, applies the 10-number cap, and only then fetches each number
through `sweet_tracker.track_auto_detect`.  The Korean report rendering
that follows the fetches is out-of-scope formatting; the model returns
the control-flow outcome (which early return fired, or the fetched
results) together with the trace of tracking numbers passed to
`track_auto_detect`, in order. -/

/-- Python `s.strip()`. -/
def pyStrip (s : String) : String :=
  ⟨(s.data.dropWhile isPySpace).reverse.dropWhile isPySpace |>.reverse⟩

/-- Python `s.split(",")` (keeps empty pieces). -/
def pySplitComma (s : String) : List String :=
  go s.data []
where
  go : List Char → List Char → List String
    | [], acc => [⟨acc.reverse⟩]
    | c :: rest, acc =>
      if c == ',' then ⟨acc.reverse⟩ :: go rest []
      else go rest (c :: acc)

/-- The `numbers` list `my_packages` builds:
`[normalize_tracking_number(n.strip()) for n in split if n.strip()]`. -/
def myPackagesNumbers (tracking_numbers : String) : List String :=
  (pySplitComma tracking_numbers).filterMap (fun n =>
    let stripped := pyStrip n
    if stripped == "" then none
    else some (normalize_tracking_number stripped))

/-- The control-flow outcome of `my_packages` (the success branch keeps
each number with its tracking result; the subsequent report rendering is
out-of-scope formatting). -/
inductive MyPackagesOutcome where
  | emptyInput
  | noValidNumbers
  | tooMany
  | report (results : List (String × TrackingResult))
deriving DecidableEq, Repr

/-- Source `my_packages`: `trackAuto` is `sweet_tracker.track_auto_detect`
(abstracted, since its fetches are the external collaborator); the
second component is the trace of numbers passed to it, in call order. -/
def my_packages (trackAuto : String → TrackingResult)
    (tracking_numbers : String) : MyPackagesOutcome × List String :=
  if tracking_numbers == "" then (.emptyInput, [])
  else
    let numbers := myPackagesNumbers tracking_numbers
    if numbers.isEmpty then (.noValidNumbers, [])
    else if numbers.length > 10 then (.tooMany, [])
    else (.report (numbers.map (fun n => (n, trackAuto n))), numbers)

/-- The C4 invariant on a `TrackingResult`: a failed result carries no
events and has an error message; a delivered result is a successful
one. -/
def trackInvariant (r : TrackingResult) : Prop :=
  (r.success = false → r.events = [] ∧ r.error_message ≠ none)
  ∧ (r.is_delivered = true → r.success = true)

/-! ## Theorems -/

/-- C1: `detect_carrier_from_tracking` on digit strings: length 12
starting with '6' gives the CJ code "04"; length exactly 13 gives the
Korea-Post code "01" unless the '6'-prefix rule already matched (the
rules form an ordered if/elif chain, first satisfied rule wins, and the
'6'-prefix rule also covers length 13); length exactly 11 gives the
Logen code "06"; length 12 not starting with '6' gives no detection. -/
theorem detect_carrier_from_tracking_rules (s : String)
    (hd : s.data.all Char.isDigit = true) :
    (pyLen s = 12 → pyStartswith s "6" = true →
      detect_carrier_from_tracking s = some "04")
    ∧ (pyLen s = 13 → detect_carrier_from_tracking s =
        if pyStartswith s "6" then some "04" else some "01")
    ∧ (pyLen s = 11 → detect_carrier_from_tracking s = some "06")
    ∧ (pyLen s = 12 → pyStartswith s "6" = false →
      detect_carrier_from_tracking s = none) := by
  have hdig : ∀ n : Nat, pyLen s = n → 0 < n → pyIsdigit s = true := by
    intro n hn hpos
    have hne : s.data ≠ [] := by
      intro h
      rw [pyLen, h] at hn
      simp at hn
      omega
    simp [pyIsdigit, hd, List.isEmpty_iff, hne]
  refine ⟨?_, ?_, ?_, ?_⟩
  · intro h12 h6
    simp [detect_carrier_from_tracking, h12, h6]
  · intro h13
    have hdig13 := hdig 13 h13 (by omega)
    by_cases h6 : pyStartswith s "6" = true
    · simp [detect_carrier_from_tracking, h13, h6]
    · simp only [Bool.not_eq_true] at h6
      simp [detect_carrier_from_tracking, h13, h6, hdig13]
  · intro h11
    have hdig11 := hdig 11 h11 (by omega)
    simp [detect_carrier_from_tracking, h11, hdig11]
  · intro h12 h6
    simp [detect_carrier_from_tracking, h12, h6]

/-- Witness for C1 at concrete inputs: a 12-digit string starting with
'6' detects as CJ, a 13-digit one as Korea Post, an 11-digit one as
Logen, and a 12-digit one not starting with '6' detects nothing. -/
theorem detect_carrier_from_tracking_rules_witness :
    detect_carrier_from_tracking "640123456789" = some "04"
    ∧ detect_carrier_from_tracking "1234567890123" = some "01"
    ∧ detect_carrier_from_tracking "12345678901" = some "06"
    ∧ detect_carrier_from_tracking "123456789012" = none := by
  refine ⟨?_, ?_, ?_, ?_⟩
  · exact (detect_carrier_from_tracking_rules "640123456789" (by decide)).1
      (by decide) (by decide)
  · have h := (detect_carrier_from_tracking_rules "1234567890123"
      (by decide)).2.1 (by decide)
    simpa using h
  · exact (detect_carrier_from_tracking_rules "12345678901" (by decide)).2.2.1
      (by decide)
  · exact (detect_carrier_from_tracking_rules "123456789012"
      (by decide)).2.2.2 (by decide) (by decide)

/-- C5: `translate_status` on "SM입고" gives phase `OUT_FOR_DELIVERY`,
not final, 6 estimated hours; on "배달완료" gives `DELIVERED`, final,
0 hours; on "반송" gives `ISSUE`, final, no hour estimate. -/
theorem translate_status_spec_examples :
    ((translate_status "SM입고").phase = .OUT_FOR_DELIVERY
      ∧ (translate_status "SM입고").is_final = false
      ∧ (translate_status "SM입고").estimated_hours = some 6)
    ∧ ((translate_status "배달완료").phase = .DELIVERED
      ∧ (translate_status "배달완료").is_final = true
      ∧ (translate_status "배달완료").estimated_hours = some 0)
    ∧ ((translate_status "반송").phase = .ISSUE
      ∧ (translate_status "반송").is_final = true
      ∧ (translate_status "반송").estimated_hours = none) := by
  decide

/-- C10: `translate_status` on "반송완료" (return-shipment completed)
has no exact table key, and the first-match substring scan hits the
"완료" (delivered) entry before the "반송" (returned) entry, so the
status is classified `DELIVERED` (final, 0 hours), not `ISSUE`. -/
theorem translate_status_return_complete :
    (STATUS_TRANSLATIONS.find?
      (fun kv => kv.1 == pyLowerNoSpace "반송완료")).isNone = true
    ∧ (translate_status "반송완료").phase = .DELIVERED
    ∧ (translate_status "반송완료").is_final = true
    ∧ (translate_status "반송완료").estimated_hours = some 0
    ∧ (translate_status "반송완료").phase ≠ .ISSUE := by
  refine ⟨by decide, by decide, by decide, by decide, by decide⟩

/-- C9: the stagnation analyzer fails open: whenever the last event's
timestamp parses under none of the three ordered formats, the result is
not stagnant, with zero idle days and an empty cause list. -/
theorem analyze_stagnation_fail_open (nowSec : Int)
    (events : List TrackingEvent) (carrier_code : String)
    (e : TrackingEvent) (hlast : events.getLast? = some e)
    (hparse : parseLastEventTime e.time = none) :
    _analyze_stagnation nowSec events carrier_code =
      { is_stagnant := false, days_stagnant := 0,
        last_location := some e.location, possible_causes := [] } := by
  unfold _analyze_stagnation
  rw [hlast]
  dsimp only
  rw [hparse]

/-- Witness for C9: a single event with an unparsable timestamp is
assessed as not stagnant. -/
theorem analyze_stagnation_fail_open_witness :
    _analyze_stagnation 0 [⟨"garbage", "간선하차", "부산 HUB", none⟩] "04" =
      { is_stagnant := false, days_stagnant := 0,
        last_location := some "부산 HUB", possible_causes := [] } :=
  analyze_stagnation_fail_open 0 [⟨"garbage", "간선하차", "부산 HUB", none⟩]
    "04" ⟨"garbage", "간선하차", "부산 HUB", none⟩ (by decide) (by decide)

/-- C8: a bulk request whose parsed number list exceeds the cap of 10
is rejected with the too-many outcome and zero fetch calls — the cap
check precedes every call to `track_auto_detect`. -/
theorem my_packages_cap_before_fetch
    (trackAuto : String → TrackingResult) (tracking_numbers : String)
    (h : 10 < (myPackagesNumbers tracking_numbers).length) :
    my_packages trackAuto tracking_numbers = (.tooMany, []) := by
  have h0 : (tracking_numbers == "") = false := by
    by_cases he : tracking_numbers = ""
    · subst he
      have : myPackagesNumbers "" = [] := by decide
      rw [this] at h
      simp at h
    · simp [he]
  have h1 : (myPackagesNumbers tracking_numbers).isEmpty = false := by
    cases hm : myPackagesNumbers tracking_numbers with
    | nil => rw [hm] at h; simp at h
    | cons a t => simp
  unfold my_packages
  simp [h0, h1, h]

/-- Witness for C8: an 11-number request is rejected with zero fetches. -/
theorem my_packages_cap_before_fetch_witness :
    my_packages carrierNotFoundResult "1,2,3,4,5,6,7,8,9,10,11" =
      (.tooMany, []) :=
  my_packages_cap_before_fetch carrierNotFoundResult
    "1,2,3,4,5,6,7,8,9,10,11" (by decide)

/-- Helper: `getLast?` commutes with `map` (event lists are detail lists mapped
through the event constructor). -/
theorem getLast?_map_eq {α β : Type} (f : α → β) :
    ∀ l : List α, (l.map f).getLast? = (l.getLast?).map f := by
  intro l
  induction l with
  | nil => rfl
  | cons a t ih =>
    cases t with
    | nil => rfl
    | cons b t' =>
      simp only [List.map_cons] at ih ⊢
      rw [List.getLast?_cons_cons, List.getLast?_cons_cons, ih]

/-- C2: for a successful upstream payload with a non-empty event list,
`track` sets `is_delivered` to true exactly when the carrier's explicit
completion flag `completeYN == "Y"` is set, OR the last event's
lowercased status contains "완료", OR it contains "배달" without also
containing "출발" — with the boolean precedence
`"완료" or ("배달" and not "출발")`. -/
theorem track_delivered_precedence (tracking_number carrier_code : String)
    (d : ApiPayload) (last : ApiDetail)
    (herr : (d.status == some "false" || d.msg.isSome) = false)
    (hlast : d.trackingDetails.getLast? = some last) :
    (track tracking_number carrier_code (.payload d)).is_delivered =
      ((d.completeYN == some "Y")
        || (strHas (pyLower last.kind) "완료"
            || (strHas (pyLower last.kind) "배달"
                && !strHas (pyLower last.kind) "출발"))) := by
  unfold track
  dsimp only
  rw [if_neg (by rw [herr]; simp)]
  rw [getLast?_map_eq, hlast]
  dsimp only
  rw [Bool.or_comm]
  rfl

/-- Witness for C2: a payload whose last event status is "배달출발"
(contains "배달" and "출발") with no completion flag is not delivered;
the theorem's condition evaluates accordingly. -/
theorem track_delivered_precedence_witness :
    (track "123456789012" "04" (.payload
      ⟨none, none,
        [⟨"2024-01-02 10:30", "배달출발", "서울 강남구", none⟩],
        none, none, none, none⟩)).is_delivered =
      ((none == some "Y")
        || (strHas (pyLower "배달출발") "완료"
            || (strHas (pyLower "배달출발") "배달"
                && !strHas (pyLower "배달출발") "출발"))) :=
  track_delivered_precedence "123456789012" "04"
    ⟨none, none, [⟨"2024-01-02 10:30", "배달출발", "서울 강남구", none⟩],
      none, none, none, none⟩
    ⟨"2024-01-02 10:30", "배달출발", "서울 강남구", none⟩
    (by decide) (by decide)

theorem trackInvariant_failedResult (n c cn msg : String) :
    trackInvariant (failedResult n c cn msg) := by
  refine ⟨fun _ => ⟨rfl, by simp [failedResult]⟩, fun h => ?_⟩
  simp [failedResult] at h

theorem trackInvariant_track (n c : String) (o : FetchOutcome) :
    trackInvariant (track n c o) := by
  cases o with
  | httpStatusError s => exact trackInvariant_failedResult _ _ _ _
  | timeout => exact trackInvariant_failedResult _ _ _ _
  | otherError m => exact trackInvariant_failedResult _ _ _ _
  | payload d =>
    unfold track
    dsimp only
    by_cases he : (d.status == some "false" || d.msg.isSome) = true
    · rw [he]
      exact trackInvariant_failedResult _ _ _ _
    · simp only [Bool.not_eq_true] at he
      rw [he]
      exact ⟨fun h => by simp at h, fun _ => rfl⟩

theorem trackInvariant_carrierNotFound (n : String) :
    trackInvariant (carrierNotFoundResult n) := by
  refine ⟨fun _ => ⟨rfl, by simp [carrierNotFoundResult]⟩, fun h => ?_⟩
  simp [carrierNotFoundResult] at h

theorem trackInvariant_cascade (fo : String → FetchOutcome) (n : String)
    (det : Option String) :
    ∀ codes tried, trackInvariant (cascadeMajors fo n det codes tried).1 := by
  intro codes
  induction codes with
  | nil => intro tried; exact trackInvariant_carrierNotFound n
  | cons code rest ih =>
    intro tried
    unfold cascadeMajors
    by_cases hskip : (some code == det) = true
    · rw [if_pos hskip]
      exact ih tried
    · rw [if_neg (by simpa using hskip)]
      dsimp only
      by_cases hs : (track n code (fo code)).success = true
      · rw [if_pos hs]
        exact trackInvariant_track n code (fo code)
      · rw [if_neg hs]
        exact ih (tried ++ [code])

/-- C4: every `TrackingResult` produced by `track` or
`track_auto_detect` satisfies the invariant: `success = false` implies
`events` is empty and `error_message` is set, and `is_delivered = true`
implies `success = true`. -/
theorem tracking_result_invariant :
    (∀ (n c : String) (o : FetchOutcome), trackInvariant (track n c o))
    ∧ (∀ (fo : String → FetchOutcome) (n : String),
        trackInvariant (track_auto_detect fo n).1) := by
  refine ⟨trackInvariant_track, fun fo n => ?_⟩
  unfold track_auto_detect
  cases detect_carrier_from_tracking n with
  | none => exact trackInvariant_cascade fo n none major_carriers []
  | some code =>
    dsimp only
    by_cases hs : (track n code (fo code)).success = true
    · rw [if_pos hs]
      exact trackInvariant_track n code (fo code)
    · rw [if_neg hs]
      exact trackInvariant_cascade fo n (some code) major_carriers [code]

/-- Witness for C4 at concrete inputs: the invariant holds for a failed
explicit query and for an auto-detect run whose fetches all time out. -/
theorem tracking_result_invariant_witness :
    trackInvariant (track "123456789012" "04" .timeout)
    ∧ trackInvariant
        (track_auto_detect (fun _ => .timeout) "123456789012").1 :=
  ⟨tracking_result_invariant.1 "123456789012" "04" .timeout,
   tracking_result_invariant.2 (fun _ => .timeout) "123456789012"⟩

/-- C3: when pattern detection yields no code and every major-carrier
fetch fails, `track_auto_detect` returns the synthetic failure result
(`success = false`, empty carrier code, the fixed "carrier not found,
please specify explicitly" message) having fetched exactly the fixed
major-carrier list `["04", "08", "05", "01", "06"]`, once each. -/
theorem track_auto_detect_exhausts_majors (fo : String → FetchOutcome)
    (n : String) (hdet : detect_carrier_from_tracking n = none)
    (hfail : ∀ code ∈ major_carriers,
      (track n code (fo code)).success = false) :
    track_auto_detect fo n = (carrierNotFoundResult n, major_carriers) := by
  have h04 := hfail "04" (by simp [major_carriers])
  have h08 := hfail "08" (by simp [major_carriers])
  have h05 := hfail "05" (by simp [major_carriers])
  have h01 := hfail "01" (by simp [major_carriers])
  have h06 := hfail "06" (by simp [major_carriers])
  unfold track_auto_detect
  rw [hdet]
  dsimp only
  show cascadeMajors fo n none ["04", "08", "05", "01", "06"] [] = _
  simp [cascadeMajors, h04, h08, h05, h01, h06, major_carriers]

/-- Witness for C3: a number detecting no carrier, with every fetch
timing out, yields the synthetic failure after the full major list. -/
theorem track_auto_detect_exhausts_majors_witness :
    track_auto_detect (fun _ => .timeout) "abc" =
      (carrierNotFoundResult "abc", major_carriers) :=
  track_auto_detect_exhausts_majors (fun _ => .timeout) "abc"
    (by decide) (fun code _ => rfl)

/-- Appending an element only when absent preserves `Nodup`. -/
theorem nodup_append_if_absent {l : List String} {m : String}
    (h : l.Nodup) (hm : m ∉ l) : (l ++ [m]).Nodup := by
  rw [List.nodup_append]
  refine ⟨h, List.nodup_singleton m, ?_⟩
  intro a ha hb
  rw [List.mem_singleton] at hb
  subst hb
  exact hm ha

theorem addNumberCandidates_nodup :
    ∀ (ms cands : List String), cands.Nodup →
      (addNumberCandidates ms cands).Nodup := by
  intro ms
  induction ms with
  | nil => exact fun cands h => h
  | cons m rest ih =>
    intro cands h
    have hcons : addNumberCandidates (m :: rest) cands =
        addNumberCandidates rest
          (if m ∈ cands then cands else cands ++ [m]) := rfl
    rw [hcons]
    apply ih
    by_cases hm : m ∈ cands
    · simpa [hm]
    · rw [if_neg hm]
      exact nodup_append_if_absent h hm

theorem addDashCandidates_nodup :
    ∀ (ms cands : List String), cands.Nodup →
      (addDashCandidates ms cands).Nodup := by
  intro ms
  induction ms with
  | nil => exact fun cands h => h
  | cons m rest ih =>
    intro cands h
    have hcons : addDashCandidates (m :: rest) cands =
        addDashCandidates rest
          (let normalized := normalize_tracking_number m
           if normalized ∉ cands ∧ 10 ≤ pyLen normalized
               ∧ pyLen normalized ≤ 15
           then cands ++ [normalized] else cands) := rfl
    rw [hcons]
    apply ih
    dsimp only
    by_cases hc : normalize_tracking_number m ∉ cands
        ∧ 10 ≤ pyLen (normalize_tracking_number m)
        ∧ pyLen (normalize_tracking_number m) ≤ 15
    · rw [if_pos hc]
      exact nodup_append_if_absent h hc.1
    · rw [if_neg hc]
      exact h

/-- C6, counterexample: in the text "운송장 1234567890" both the
"운송장" and the "송장" explicit-label patterns capture the same number
(the label word "운송장" contains "송장"), and the explicit-label pass
appends without a duplicate check, so the returned candidate list holds
the same normalized string twice — refuting "a candidate whose exact
normalized string is already present is never re-added" across all
three passes. -/
theorem extract_dedup_counterexample :
    extract_tracking_numbers "운송장 1234567890" =
      ["1234567890", "1234567890"]
    ∧ ¬ (extract_tracking_numbers "운송장 1234567890").Nodup :=
  ⟨by decide, by decide⟩

/-- C6, amended: only the bare-digit and dash-grouped passes check for
already-present candidates before appending (so they never introduce a
duplicate); the explicit-label pass appends every length-valid match
unconditionally.  Hence whenever the explicit-label pass's own output is
duplicate-free, the whole returned list is. -/
theorem extract_dedup_passes_two_three (text : String)
    (h : (explicitCandidates text).Nodup) :
    (extract_tracking_numbers text).Nodup :=
  addDashCandidates_nodup _ _ (addNumberCandidates_nodup _ _ h)

/-- Witness for the amended C6 on a concrete text with no explicit
label: the returned list is duplicate-free. -/
theorem extract_dedup_passes_two_three_witness :
    (extract_tracking_numbers "1234567890123 123456789012").Nodup :=
  extract_dedup_passes_two_three "1234567890123 123456789012" (by decide)

/-- Once the loop state of `parse_tracking_input` holds a carrier, it
never changes again. -/
theorem foldl_loopCarrierState_some (cc : String) :
    ∀ (nums : List String) (st : Option String × Option String),
      st.1 = some cc → nums.foldl loopCarrierState st = st := by
  intro nums
  induction nums with
  | nil => intro st _; rfl
  | cons n rest ih =>
    intro st h
    rw [List.foldl_cons]
    have hstep : loopCarrierState st n = st := by
      unfold loopCarrierState
      simp [h]
    rw [hstep]
    exact ih st h

/-- Starting from a carrier-less state, the loop state's carrier code
after a candidate list is the first detection along that list. -/
theorem foldl_loopCarrierState_none :
    ∀ (nums : List String) (st : Option String × Option String),
      st.1 = none →
      (nums.foldl loopCarrierState st).1 =
        (firstDetect nums).map Prod.fst := by
  intro nums
  induction nums with
  | nil =>
    intro st h
    simpa [firstDetect] using h
  | cons n rest ih =>
    intro st h
    rw [List.foldl_cons]
    cases hdet : detect_carrier_from_tracking n with
    | some dc =>
      cases hcar : get_carrier_by_code dc with
      | some c =>
        have hstep : loopCarrierState st n = (some c.code, some c.name) := by
          simp [loopCarrierState, h, hdet, hcar]
        rw [hstep,
          foldl_loopCarrierState_some c.code rest (some c.code, some c.name)
            rfl]
        simp [firstDetect, hdet, hcar]
      | none =>
        have hstep : loopCarrierState st n = st := by
          simp [loopCarrierState, h, hdet, hcar]
        rw [hstep, ih st h]
        simp [firstDetect, hdet, hcar]
    | none =>
      have hstep : loopCarrierState st n = st := by
        simp [loopCarrierState, h, hdet]
      rw [hstep, ih st h]
      simp [firstDetect, hdet]

/-- The `i`-th `ParsedTracking` emitted by the loop carries exactly the
loop state's carrier code after folding over the first `i + 1`
candidates. -/
theorem parseLoop_getElem (text : String) (m : Option String) :
    ∀ (nums : List String) (st : Option String × Option String) (i : Nat)
      (p : ParsedTracking),
      (parseLoop text m nums st.1 st.2)[i]? = some p →
      p.carrier_code = ((nums.take (i + 1)).foldl loopCarrierState st).1 := by
  intro nums
  induction nums with
  | nil =>
    intro st i p hp
    simp [parseLoop] at hp
  | cons num rest ih =>
    intro st i p hp
    cases i with
    | zero =>
      simp only [parseLoop] at hp
      rw [List.getElem?_cons_zero] at hp
      injection hp with hp
      subst hp
      rfl
    | succ j =>
      simp only [parseLoop] at hp
      rw [List.getElem?_cons_succ] at hp
      have h := ih (loopCarrierState st num) j p hp
      rw [h]
      rfl

/-- C7, counterexample: in the text "1234567890123 123456789012" no
text-level carrier is detected and pattern detection on the second
candidate "123456789012" yields no code, yet the second candidate is
attributed carrier "01" — the detection made for the first candidate
leaks into the loop state — refuting "a candidate on which pattern
detection yields no code and with no text-level carrier gets no carrier
attribution". -/
theorem parse_carrier_counterexample :
    extract_carrier_name "1234567890123 123456789012" = none
    ∧ detect_carrier_from_tracking "123456789012" = none
    ∧ (parse_tracking_input "1234567890123 123456789012").map
        (fun p => (p.tracking_number, p.carrier_code)) =
      [("1234567890123", some "01"), ("123456789012", some "01")] :=
  ⟨by decide, by decide, by decide⟩

/-- C7, amended: the carrier attributed to the `i`-th candidate is the
text-level carrier when one resolved, and otherwise the first
pattern-based detection among this candidate and all earlier candidates
of the same call (the loop-carried detection persists); in particular a
candidate gets no carrier only when no text-level carrier exists and
neither it nor any earlier candidate pattern-detected one. -/
theorem parse_carrier_attribution (text : String) (i : Nat)
    (p : ParsedTracking)
    (hp : (parse_tracking_input text)[i]? = some p) :
    p.carrier_code =
      match (textCarrier text).1 with
      | some code => some code
      | none =>
        (firstDetect ((extract_tracking_numbers text).take (i + 1))).map
          Prod.fst := by
  unfold parse_tracking_input at hp
  dsimp only at hp
  have h := parseLoop_getElem text (extract_carrier_name text)
    (extract_tracking_numbers text) (textCarrier text) i p hp
  rw [h]
  cases htc : (textCarrier text).1 with
  | some code =>
    rw [foldl_loopCarrierState_some code
      ((extract_tracking_numbers text).take (i + 1)) (textCarrier text) htc]
    rw [htc]
  | none =>
    rw [foldl_loopCarrierState_none
      ((extract_tracking_numbers text).take (i + 1)) (textCarrier text) htc]

/-- Witness for the amended C7: the second candidate of
"1234567890123 123456789012" is attributed carrier "01" (leaked from
the first candidate's detection), as the theorem dictates. -/
theorem parse_carrier_attribution_witness :
    ((parse_tracking_input "1234567890123 123456789012")[1]?).map
      ParsedTracking.carrier_code = some (some "01") := by
  cases h : (parse_tracking_input "1234567890123 123456789012")[1]? with
  | none =>
    exfalso
    have hlen : (parse_tracking_input "1234567890123 123456789012").map
        (fun p => p.tracking_number) =
        ["1234567890123", "123456789012"] := by decide
    have h2 : (parse_tracking_input "1234567890123 123456789012").length = 2 := by
      have := congrArg List.length hlen
      simpa using this
    rw [List.getElem?_eq_none_iff, h2] at h
    omega
  | some p =>
    have hc := parse_carrier_attribution "1234567890123 123456789012" 1 p h
    rw [Option.map_some', hc]
    decide

end TrackMate
